import Mathlib

/-!
Shallow embedding of the error-decoding core of the socketcan library
(src/errors.rs): the four byte decoders, the error-frame dispatcher, the
composite error with its capability projection, and the small auxiliary
error types, together with theorems about them.

Machine integers (u8 masks and payload bytes, the u32 error mask) are
modelled as Nat; every operation of the source performs only equality
tests and table lookups on them, so no wrap-around arithmetic occurs.
-/

namespace SocketCan

/-- Result type mirroring the Rust standard Result as returned by the
TryFrom implementations of errors.rs. -/
inductive RustResult (α ε : Type) where
  | ok (val : α)
  | err (e : ε)
deriving DecidableEq

/-- True exactly when the result is the ok case. -/
def RustResult.isOk {α ε : Type} : RustResult α ε → Bool
  | .ok _ => true
  | .err _ => false

/-- Mirrors enum CanErrorDecodingFailure of errors.rs. The u32 and u8
payloads are modelled as Nat. -/
inductive CanErrorDecodingFailure where
  | NotAnError
  | UnknownErrorType (mask : Nat)
  | NotEnoughData (n : Nat)
  | InvalidControllerProblem
  | InvalidViolationType
  | InvalidLocation
  | InvalidTransceiverError
deriving DecidableEq

/-- Mirrors enum ControllerProblem of errors.rs. -/
inductive ControllerProblem where
  | Unspecified
  | ReceiveBufferOverflow
  | TransmitBufferOverflow
  | ReceiveErrorWarning
  | TransmitErrorWarning
  | ReceiveErrorPassive
  | TransmitErrorPassive
  | Active
deriving DecidableEq, Fintype

/-- Mirrors enum ViolationType of errors.rs. -/
inductive ViolationType where
  | Unspecified
  | SingleBitError
  | FrameFormatError
  | BitStuffingError
  | UnableToSendDominantBit
  | UnableToSendRecessiveBit
  | BusOverload
  | Active
  | TransmissionError
deriving DecidableEq, Fintype

/-- Mirrors enum Location of errors.rs. -/
inductive Location where
  | Unspecified
  | StartOfFrame
  | Id2821
  | Id2018
  | SubstituteRtr
  | IdentifierExtension
  | Id1713
  | Id1205
  | Id0400
  | Rtr
  | Reserved1
  | Reserved0
  | DataLengthCode
  | DataSection
  | CrcSequence
  | CrcDelimiter
  | AckSlot
  | AckDelimiter
  | EndOfFrame
  | Intermission
deriving DecidableEq, Fintype

/-- Mirrors enum TransceiverError of errors.rs. -/
inductive TransceiverError where
  | Unspecified
  | CanHighNoWire
  | CanHighShortToBat
  | CanHighShortToVcc
  | CanHighShortToGnd
  | CanLowNoWire
  | CanLowShortToBat
  | CanLowShortToVcc
  | CanLowShortToGnd
  | CanLowShortToCanHigh
deriving DecidableEq, Fintype

/-- Mirrors impl TryFrom of u8 for ControllerProblem (errors.rs lines 245-262). -/
def ControllerProblem.tryFrom (val : Nat) :
    RustResult ControllerProblem CanErrorDecodingFailure :=
  match val with
  | 0x00 => .ok .Unspecified
  | 0x01 => .ok .ReceiveBufferOverflow
  | 0x02 => .ok .TransmitBufferOverflow
  | 0x04 => .ok .ReceiveErrorWarning
  | 0x08 => .ok .TransmitErrorWarning
  | 0x10 => .ok .ReceiveErrorPassive
  | 0x20 => .ok .TransmitErrorPassive
  | 0x40 => .ok .Active
  | _ => .err .InvalidControllerProblem

/-- Mirrors impl TryFrom of u8 for ViolationType (errors.rs lines 312-330). -/
def ViolationType.tryFrom (val : Nat) :
    RustResult ViolationType CanErrorDecodingFailure :=
  match val with
  | 0x00 => .ok .Unspecified
  | 0x01 => .ok .SingleBitError
  | 0x02 => .ok .FrameFormatError
  | 0x04 => .ok .BitStuffingError
  | 0x08 => .ok .UnableToSendDominantBit
  | 0x10 => .ok .UnableToSendRecessiveBit
  | 0x20 => .ok .BusOverload
  | 0x40 => .ok .Active
  | 0x80 => .ok .TransmissionError
  | _ => .err .InvalidViolationType

/-- Mirrors impl TryFrom of u8 for Location (errors.rs lines 410-439). -/
def Location.tryFrom (val : Nat) :
    RustResult Location CanErrorDecodingFailure :=
  match val with
  | 0x00 => .ok .Unspecified
  | 0x03 => .ok .StartOfFrame
  | 0x02 => .ok .Id2821
  | 0x06 => .ok .Id2018
  | 0x04 => .ok .SubstituteRtr
  | 0x05 => .ok .IdentifierExtension
  | 0x07 => .ok .Id1713
  | 0x0F => .ok .Id1205
  | 0x0E => .ok .Id0400
  | 0x0C => .ok .Rtr
  | 0x0D => .ok .Reserved1
  | 0x09 => .ok .Reserved0
  | 0x0B => .ok .DataLengthCode
  | 0x0A => .ok .DataSection
  | 0x08 => .ok .CrcSequence
  | 0x18 => .ok .CrcDelimiter
  | 0x19 => .ok .AckSlot
  | 0x1B => .ok .AckDelimiter
  | 0x1A => .ok .EndOfFrame
  | 0x12 => .ok .Intermission
  | _ => .err .InvalidLocation

/-- Mirrors impl TryFrom of u8 for TransceiverError (errors.rs lines 470-489). -/
def TransceiverError.tryFrom (val : Nat) :
    RustResult TransceiverError CanErrorDecodingFailure :=
  match val with
  | 0x00 => .ok .Unspecified
  | 0x04 => .ok .CanHighNoWire
  | 0x05 => .ok .CanHighShortToBat
  | 0x06 => .ok .CanHighShortToVcc
  | 0x07 => .ok .CanHighShortToGnd
  | 0x40 => .ok .CanLowNoWire
  | 0x50 => .ok .CanLowShortToBat
  | 0x60 => .ok .CanLowShortToVcc
  | 0x70 => .ok .CanLowShortToGnd
  | 0x80 => .ok .CanLowShortToCanHigh
  | _ => .err .InvalidTransceiverError

/-- Mirrors enum CanError of errors.rs. -/
inductive CanError where
  | TransmitTimeout
  | LostArbitration (n : Nat)
  | ControllerProblem (e : ControllerProblem)
  | ProtocolViolation (vtype : ViolationType) (location : Location)
  | TransceiverError
  | NoAck
  | BusOff
  | BusError
  | Restarted
  | DecodingFailure (e : CanErrorDecodingFailure)
  | Unknown (mask : Nat)
deriving DecidableEq

/-- The error-frame abstraction consumed by the dispatcher: a 32-bit error
mask (error_bits) together with the 8-byte data payload. The producer of
CanErrorFrame guarantees the payload holds exactly 8 bytes, so the data is
modelled as a total function from Fin 8 to byte values. -/
structure CanErrorFrame where
  error_bits : Nat
  data : Fin 8 → Nat

/-- Mirrors impl From of CanErrorFrame for CanError (errors.rs lines 170-199):
the top-level dispatcher matching the error mask by exact equality. -/
def CanError.fromFrame (frame : CanErrorFrame) : CanError :=
  match frame.error_bits with
  | 0x0001 => .TransmitTimeout
  | 0x0002 => .LostArbitration (frame.data 0)
  | 0x0004 =>
    match ControllerProblem.tryFrom (frame.data 1) with
    | .ok err => .ControllerProblem err
    | .err err => .DecodingFailure err
  | 0x0008 =>
    match ViolationType.tryFrom (frame.data 2), Location.tryFrom (frame.data 3) with
    | .ok vtype, .ok location => .ProtocolViolation vtype location
    | .err err, _ => .DecodingFailure err
    | _, .err err => .DecodingFailure err
  | 0x0010 => .TransceiverError
  | 0x0020 => .NoAck
  | 0x0040 => .BusOff
  | 0x0080 => .BusError
  | 0x0100 => .Restarted
  | err => .Unknown err

/-- Mirrors impl Display for ControllerProblem (errors.rs lines 228-243). -/
def ControllerProblem.displayString : ControllerProblem → String
  | .Unspecified => "unspecified controller problem"
  | .ReceiveBufferOverflow => "receive buffer overflow"
  | .TransmitBufferOverflow => "transmit buffer overflow"
  | .ReceiveErrorWarning => "ERROR WARNING (receive)"
  | .TransmitErrorWarning => "ERROR WARNING (transmit)"
  | .ReceiveErrorPassive => "ERROR PASSIVE (receive)"
  | .TransmitErrorPassive => "ERROR PASSIVE (transmit)"
  | .Active => "ERROR ACTIVE"

/-- Mirrors impl Display for ViolationType (errors.rs lines 294-310). -/
def ViolationType.displayString : ViolationType → String
  | .Unspecified => "unspecified"
  | .SingleBitError => "single bit error"
  | .FrameFormatError => "frame format error"
  | .BitStuffingError => "bit stuffing error"
  | .UnableToSendDominantBit => "unable to send dominant bit"
  | .UnableToSendRecessiveBit => "unable to send recessive bit"
  | .BusOverload => "bus overload"
  | .Active => "active"
  | .TransmissionError => "transmission error"

/-- Mirrors impl Display for Location (errors.rs lines 382-409). -/
def Location.displayString : Location → String
  | .Unspecified => "unspecified location"
  | .StartOfFrame => "start of frame"
  | .Id2821 => "ID, bits 28-21"
  | .Id2018 => "ID, bits 20-18"
  | .SubstituteRtr => "substitute RTR bit"
  | .IdentifierExtension => "ID, extension"
  | .Id1713 => "ID, bits 17-13"
  | .Id1205 => "ID, bits 12-05"
  | .Id0400 => "ID, bits 04-00"
  | .Rtr => "RTR bit"
  | .Reserved1 => "reserved bit 1"
  | .Reserved0 => "reserved bit 0"
  | .DataLengthCode => "data length code"
  | .DataSection => "data section"
  | .CrcSequence => "CRC sequence"
  | .CrcDelimiter => "CRC delimiter"
  | .AckSlot => "ACK slot"
  | .AckDelimiter => "ACK delimiter"
  | .EndOfFrame => "end of frame"
  | .Intermission => "intermission"

/-- Mirrors impl Display for CanErrorDecodingFailure (errors.rs lines 536-550). -/
def CanErrorDecodingFailure.displayString : CanErrorDecodingFailure → String
  | .NotAnError => "CAN frame is not an error"
  | .UnknownErrorType _ => "unknown error type"
  | .NotEnoughData _ => "not enough data"
  | .InvalidControllerProblem => "not a valid controller problem"
  | .InvalidViolationType => "not a valid violation type"
  | .InvalidLocation => "not a valid location"
  | .InvalidTransceiverError => "not a valid transceiver error"

/-- Mirrors impl Display for CanError (errors.rs lines 131-150); the write
format arguments are modelled with string concatenation. -/
def CanError.displayString : CanError → String
  | .TransmitTimeout => "transmission timeout"
  | .LostArbitration n => "arbitration lost after " ++ toString n ++ " bits"
  | .ControllerProblem e => "controller problem: " ++ e.displayString
  | .ProtocolViolation vtype location =>
      "protocol violation at " ++ location.displayString ++ ": " ++ vtype.displayString
  | .TransceiverError => "transceiver error"
  | .NoAck => "no ack"
  | .BusOff => "bus off"
  | .BusError => "bus error"
  | .Restarted => "restarted"
  | .DecodingFailure e => "decoding failure: " ++ e.displayString
  | .Unknown e => "unknown error (" ++ toString e ++ ")"

/-- Modelled from the external embedded_can crate used by errors.rs: the
coarse error-kind codomain of the capability projection. Only the kinds
this library produces are distinguished; Overrun is the overrun kind,
Acknowledge the acknowledgement-failure kind, Other everything else. -/
inductive ErrorKind where
  | Overrun
  | Acknowledge
  | Other
deriving DecidableEq

/-- Mirrors impl embedded_can Error for CanError (errors.rs lines 152-168):
the capability projection on the bus-error taxonomy. -/
def CanError.kind : CanError → ErrorKind
  | .ControllerProblem cp =>
    match cp with
    | .ReceiveBufferOverflow | .TransmitBufferOverflow => .Overrun
    | _ => .Other
  | .NoAck => .Acknowledge
  | _ => .Other

/-- Mirrors enum CanSocketOpenError of errors.rs. The wrapped OS lookup
error (nix) and OS I/O error are external values whose content this
library never inspects; they are modelled as abstract numeric codes. -/
inductive CanSocketOpenError where
  | LookupError (e : Nat)
  | IOError (e : Nat)
deriving DecidableEq

/-- Mirrors the composite enum Error of errors.rs (lines 50-67), wrapping
the bus error, a bare controller problem, the socket-open error, and the
two OS-level error families (modelled as abstract numeric codes). -/
inductive Error where
  | Can (e : CanError)
  | Controller (e : ControllerProblem)
  | SocketOpen (e : CanSocketOpenError)
  | Nix (e : Nat)
  | Io (e : Nat)
deriving DecidableEq

/-- Mirrors impl embedded_can Error for Error (errors.rs lines 69-76):
the composite delegates to the bus-error projection for the Can case
and yields Other for everything else. -/
def Error.kind : Error → ErrorKind
  | .Can e => e.kind
  | _ => .Other

/-- Mirrors enum ConstructionError of errors.rs. -/
inductive ConstructionError where
  | WrongFrameType
  | IDTooLarge
  | TooMuchData
deriving DecidableEq, Fintype

/-- Mirrors the derived PartialEq of ConstructionError: structural equality
of the nullary cases, true exactly when both sides are the same variant. -/
def ConstructionError.beq : ConstructionError → ConstructionError → Bool
  | .WrongFrameType, .WrongFrameType => true
  | .IDTooLarge, .IDTooLarge => true
  | .TooMuchData, .TooMuchData => true
  | _, _ => false

/-- Mirrors ControllerSpecificErrorInformation get_ctrl_err
(errors.rs lines 497-508), stated over the frame data it reads: when the
data is exactly 8 bytes it yields the sub-slice from index 5 on, and
otherwise nothing. -/
def get_ctrl_err (data : List Nat) : Option (List Nat) :=
  if data.length = 8 then some (data.drop 5) else none

/-- The byte values on which the controller-problem decoder succeeds,
read off the match arms of errors.rs lines 250-259. -/
def controllerProblemValidCodes : List Nat :=
  [0x00, 0x01, 0x02, 0x04, 0x08, 0x10, 0x20, 0x40]

/-- The byte values on which the violation-type decoder succeeds,
read off the match arms of errors.rs lines 317-327. -/
def violationTypeValidCodes : List Nat :=
  [0x00, 0x01, 0x02, 0x04, 0x08, 0x10, 0x20, 0x40, 0x80]

/-- The byte values on which the location decoder succeeds,
read off the match arms of errors.rs lines 415-436. -/
def locationValidCodes : List Nat :=
  [0x00, 0x03, 0x02, 0x06, 0x04, 0x05, 0x07, 0x0F, 0x0E, 0x0C,
   0x0D, 0x09, 0x0B, 0x0A, 0x08, 0x18, 0x19, 0x1B, 0x1A, 0x12]

/-- The byte values on which the transceiver-status decoder succeeds,
read off the match arms of errors.rs lines 475-486. -/
def transceiverErrorValidCodes : List Nat :=
  [0x00, 0x04, 0x05, 0x06, 0x07, 0x40, 0x50, 0x60, 0x70, 0x80]

end SocketCan

namespace SocketCan

/-- Claim C1: the top-level decode from an error frame dispatches on the
32-bit error mask by exact equality: mask 0x0001 yields transmit-timeout,
0x0002 yields lost-arbitration carrying payload byte 0, 0x0010 yields
transceiver-error, 0x0020 yields no-acknowledge, 0x0040 yields bus-off,
0x0080 yields bus-error, 0x0100 yields restarted, and every mask not equal
to one of the nine recognized single-flag values (including combinations
of recognized flags such as 0x0003) yields Unknown carrying the raw mask
verbatim. -/
theorem dispatch_exact_equality :
    (∀ d : Fin 8 → Nat, CanError.fromFrame ⟨0x0001, d⟩ = .TransmitTimeout) ∧
    (∀ d : Fin 8 → Nat, CanError.fromFrame ⟨0x0002, d⟩ = .LostArbitration (d 0)) ∧
    (∀ d : Fin 8 → Nat, CanError.fromFrame ⟨0x0010, d⟩ = .TransceiverError) ∧
    (∀ d : Fin 8 → Nat, CanError.fromFrame ⟨0x0020, d⟩ = .NoAck) ∧
    (∀ d : Fin 8 → Nat, CanError.fromFrame ⟨0x0040, d⟩ = .BusOff) ∧
    (∀ d : Fin 8 → Nat, CanError.fromFrame ⟨0x0080, d⟩ = .BusError) ∧
    (∀ d : Fin 8 → Nat, CanError.fromFrame ⟨0x0100, d⟩ = .Restarted) ∧
    (∀ (mask : Nat) (d : Fin 8 → Nat),
      mask ∉ ([0x0001, 0x0002, 0x0004, 0x0008, 0x0010,
               0x0020, 0x0040, 0x0080, 0x0100] : List Nat) →
      CanError.fromFrame ⟨mask, d⟩ = .Unknown mask) := by
  refine ⟨fun d => rfl, fun d => rfl, fun d => rfl, fun d => rfl,
          fun d => rfl, fun d => rfl, fun d => rfl, ?_⟩
  intro mask d h
  unfold CanError.fromFrame
  split <;> simp_all

/-- Witness for dispatch_exact_equality: the combined mask 0x0003 is not a
recognized single-flag value, so it decodes to Unknown 0x0003. -/
theorem dispatch_exact_equality_witness :
    CanError.fromFrame ⟨0x0003, fun _ => 0⟩ = .Unknown 0x0003 :=
  dispatch_exact_equality.2.2.2.2.2.2.2 0x0003 (fun _ => 0) (by decide)

end SocketCan

namespace SocketCan

/-- Counterexample to claim C2 as stated: the transceiver-status decoder
does not succeed on exactly 9 byte values — the set of bytes in 0-255 on
which it returns a defined variant has exactly 10 elements (the table of
errors.rs lines 475-486 has 10 entries), so "a defined variant iff the
byte is one of its 9 valid codes" is false. -/
theorem transceiver_nine_codes_counterexample :
    (((List.range 256).filter
        (fun b => (TransceiverError.tryFrom b).isOk)).length = 10) ∧
    (10 : Nat) ≠ 9 := by
  constructor
  · decide
  · decide

/-- Claim C2 (amended): for every byte value 0-255, each byte decoder is
total and fails exactly off its valid set: the controller-problem decoder
succeeds iff the byte is among its 8 valid codes and returns
invalid-controller-problem otherwise; the violation-type decoder succeeds
iff the byte is among its 9 valid codes and returns invalid-violation-type
otherwise; the location decoder succeeds iff the byte is among its 20
valid codes and returns invalid-location otherwise; the transceiver-status
decoder succeeds iff the byte is among its 10 valid codes and returns
invalid-transceiver-error otherwise. -/
theorem byte_decoders_total :
    ∀ b : Fin 256,
      ((ControllerProblem.tryFrom b.val).isOk = true ↔
        b.val ∈ controllerProblemValidCodes) ∧
      (b.val ∉ controllerProblemValidCodes →
        ControllerProblem.tryFrom b.val = .err .InvalidControllerProblem) ∧
      ((ViolationType.tryFrom b.val).isOk = true ↔
        b.val ∈ violationTypeValidCodes) ∧
      (b.val ∉ violationTypeValidCodes →
        ViolationType.tryFrom b.val = .err .InvalidViolationType) ∧
      ((Location.tryFrom b.val).isOk = true ↔ b.val ∈ locationValidCodes) ∧
      (b.val ∉ locationValidCodes →
        Location.tryFrom b.val = .err .InvalidLocation) ∧
      ((TransceiverError.tryFrom b.val).isOk = true ↔
        b.val ∈ transceiverErrorValidCodes) ∧
      (b.val ∉ transceiverErrorValidCodes →
        TransceiverError.tryFrom b.val = .err .InvalidTransceiverError) := by
  set_option maxRecDepth 4096 in decide

/-- Witness for byte_decoders_total: each decoder applied to a byte
outside its valid set yields the corresponding invalid failure. -/
theorem byte_decoders_total_witness :
    ControllerProblem.tryFrom 3 = .err .InvalidControllerProblem ∧
    ViolationType.tryFrom 3 = .err .InvalidViolationType ∧
    Location.tryFrom 0x13 = .err .InvalidLocation ∧
    TransceiverError.tryFrom 3 = .err .InvalidTransceiverError :=
  ⟨(byte_decoders_total ⟨3, by decide⟩).2.1 (by decide),
   (byte_decoders_total ⟨3, by decide⟩).2.2.2.1 (by decide),
   (byte_decoders_total ⟨0x13, by decide⟩).2.2.2.2.2.1 (by decide),
   (byte_decoders_total ⟨3, by decide⟩).2.2.2.2.2.2.2 (by decide)⟩

end SocketCan

namespace SocketCan

/-- Claim C3: for every 8-byte payload, decode with mask 0x0004 runs the
controller-problem decoder on payload byte 1, wrapping success into
controller-problem and failure into decoding-failure; decode with mask
0x0008 runs the violation-type decoder on byte 2 and the location decoder
on byte 3, wrapping a pair of successes into protocol-violation, a
violation-type failure into decoding-failure carrying that failure (even
when the location decoder also fails, since the fourth conjunct places no
constraint on the location result), and a location failure with a
successful violation-type into decoding-failure carrying the location
failure. -/
theorem controller_and_protocol_dispatch :
    ∀ d : Fin 8 → Nat,
      (∀ cp, ControllerProblem.tryFrom (d 1) = .ok cp →
        CanError.fromFrame ⟨0x0004, d⟩ = .ControllerProblem cp) ∧
      (∀ e, ControllerProblem.tryFrom (d 1) = .err e →
        CanError.fromFrame ⟨0x0004, d⟩ = .DecodingFailure e) ∧
      (∀ vt loc, ViolationType.tryFrom (d 2) = .ok vt →
        Location.tryFrom (d 3) = .ok loc →
        CanError.fromFrame ⟨0x0008, d⟩ = .ProtocolViolation vt loc) ∧
      (∀ e, ViolationType.tryFrom (d 2) = .err e →
        CanError.fromFrame ⟨0x0008, d⟩ = .DecodingFailure e) ∧
      (∀ vt e, ViolationType.tryFrom (d 2) = .ok vt →
        Location.tryFrom (d 3) = .err e →
        CanError.fromFrame ⟨0x0008, d⟩ = .DecodingFailure e) := by
  intro d
  have h4 : CanError.fromFrame ⟨0x0004, d⟩ =
      match ControllerProblem.tryFrom (d 1) with
      | .ok err => .ControllerProblem err
      | .err err => .DecodingFailure err := rfl
  have h8 : CanError.fromFrame ⟨0x0008, d⟩ =
      match ViolationType.tryFrom (d 2), Location.tryFrom (d 3) with
      | .ok vtype, .ok location => .ProtocolViolation vtype location
      | .err err, _ => .DecodingFailure err
      | _, .err err => .DecodingFailure err := rfl
  refine ⟨?_, ?_, ?_, ?_, ?_⟩
  · intro cp h; rw [h4, h]
  · intro e h; rw [h4, h]
  · intro vt loc hv hl; rw [h8, hv, hl]
  · intro e hv
    rw [h8, hv]
    cases Location.tryFrom (d 3) <;> rfl
  · intro vt e hv hl; rw [h8, hv, hl]

/-- Witness for controller_and_protocol_dispatch: byte 1 equal to 0x01
decodes as controller-problem(receive-buffer-overflow); an all-0xFF
payload, on which both the violation-type decoder and the location
decoder fail, decodes as decoding-failure(invalid-violation-type), the
violation-type failure taking precedence. -/
theorem controller_and_protocol_dispatch_witness :
    CanError.fromFrame ⟨0x0004, fun _ => 1⟩ =
      .ControllerProblem .ReceiveBufferOverflow ∧
    CanError.fromFrame ⟨0x0008, fun _ => 0xFF⟩ =
      .DecodingFailure .InvalidViolationType :=
  ⟨(controller_and_protocol_dispatch (fun _ => 1)).1 .ReceiveBufferOverflow rfl,
   (controller_and_protocol_dispatch (fun _ => 0xFF)).2.2.2.1
     .InvalidViolationType rfl⟩

/-- Claim C4: the location decoder implements exactly the 20-entry
non-contiguous table of errors.rs lines 415-436, and every byte outside
the 20 keys yields invalid-location. -/
theorem location_table_exact :
    Location.tryFrom 0x00 = .ok .Unspecified ∧
    Location.tryFrom 0x03 = .ok .StartOfFrame ∧
    Location.tryFrom 0x02 = .ok .Id2821 ∧
    Location.tryFrom 0x06 = .ok .Id2018 ∧
    Location.tryFrom 0x04 = .ok .SubstituteRtr ∧
    Location.tryFrom 0x05 = .ok .IdentifierExtension ∧
    Location.tryFrom 0x07 = .ok .Id1713 ∧
    Location.tryFrom 0x0F = .ok .Id1205 ∧
    Location.tryFrom 0x0E = .ok .Id0400 ∧
    Location.tryFrom 0x0C = .ok .Rtr ∧
    Location.tryFrom 0x0D = .ok .Reserved1 ∧
    Location.tryFrom 0x09 = .ok .Reserved0 ∧
    Location.tryFrom 0x0B = .ok .DataLengthCode ∧
    Location.tryFrom 0x0A = .ok .DataSection ∧
    Location.tryFrom 0x08 = .ok .CrcSequence ∧
    Location.tryFrom 0x18 = .ok .CrcDelimiter ∧
    Location.tryFrom 0x19 = .ok .AckSlot ∧
    Location.tryFrom 0x1B = .ok .AckDelimiter ∧
    Location.tryFrom 0x1A = .ok .EndOfFrame ∧
    Location.tryFrom 0x12 = .ok .Intermission ∧
    (∀ b : Fin 256, b.val ∉ locationValidCodes →
      Location.tryFrom b.val = .err .InvalidLocation) := by
  set_option maxRecDepth 4096 in decide

/-- Witness for location_table_exact: byte 0x01 is outside the 20-entry
table and decodes to invalid-location. -/
theorem location_table_exact_witness :
    Location.tryFrom 0x01 = .err .InvalidLocation :=
  location_table_exact.2.2.2.2.2.2.2.2.2.2.2.2.2.2.2.2.2.2.2.2
    ⟨0x01, by decide⟩ (by decide)

/-- Claim C5: for every pair of 8-byte payloads, decoding mask 0x0010
yields the unit transceiver-error variant regardless of payload contents:
the result never depends on the payload (in particular not on byte 4, so
the transceiver-status decoder plays no part in it). -/
theorem transceiver_unit_case :
    ∀ d d' : Fin 8 → Nat,
      CanError.fromFrame ⟨0x0010, d⟩ = .TransceiverError ∧
      CanError.fromFrame ⟨0x0010, d⟩ = CanError.fromFrame ⟨0x0010, d'⟩ :=
  fun _ _ => ⟨rfl, rfl⟩

end SocketCan

namespace SocketCan

/-- Claim C6: the capability projection is total over both the bus-error
type and the composite error type and maps controller-problem with
receive-buffer-overflow or transmit-buffer-overflow to overrun,
no-acknowledge to acknowledge-failure, and every other case — every other
bus-error variant, the composite's directly wrapped controller-problem,
socket-open, OS-level and OS I/O cases — to other; the composite's Can
case delegates to the bus-error projection. -/
theorem kind_projection_total :
    (CanError.kind (.ControllerProblem .ReceiveBufferOverflow) = .Overrun) ∧
    (CanError.kind (.ControllerProblem .TransmitBufferOverflow) = .Overrun) ∧
    (CanError.kind .NoAck = .Acknowledge) ∧
    (∀ cp, cp ≠ .ReceiveBufferOverflow → cp ≠ .TransmitBufferOverflow →
      CanError.kind (.ControllerProblem cp) = .Other) ∧
    (CanError.kind .TransmitTimeout = .Other) ∧
    (∀ n, CanError.kind (.LostArbitration n) = .Other) ∧
    (∀ vt loc, CanError.kind (.ProtocolViolation vt loc) = .Other) ∧
    (CanError.kind .TransceiverError = .Other) ∧
    (CanError.kind .BusOff = .Other) ∧
    (CanError.kind .BusError = .Other) ∧
    (CanError.kind .Restarted = .Other) ∧
    (∀ f, CanError.kind (.DecodingFailure f) = .Other) ∧
    (∀ m, CanError.kind (.Unknown m) = .Other) ∧
    (∀ e, Error.kind (.Can e) = CanError.kind e) ∧
    (∀ cp, Error.kind (.Controller cp) = .Other) ∧
    (∀ s, Error.kind (.SocketOpen s) = .Other) ∧
    (∀ n, Error.kind (.Nix n) = .Other) ∧
    (∀ i, Error.kind (.Io i) = .Other) := by
  refine ⟨rfl, rfl, rfl, ?_, rfl, fun _ => rfl, fun _ _ => rfl, rfl, rfl,
          rfl, rfl, fun _ => rfl, fun _ => rfl, fun _ => rfl, fun _ => rfl,
          fun _ => rfl, fun _ => rfl, fun _ => rfl⟩
  intro cp h1 h2
  cases cp <;> first | rfl | exact absurd rfl h1 | exact absurd rfl h2

/-- Witness for kind_projection_total: the controller-problem value
error-active is neither buffer overflow, and its bus error projects
to other. -/
theorem kind_projection_total_witness :
    CanError.kind (.ControllerProblem .Active) = .Other :=
  kind_projection_total.2.2.2.1 .Active (by decide) (by decide)

/-- Counterexample to claim C7 as stated: the bus-error variant
controller-problem(error-active) does not render as the string
"ERROR ACTIVE" — its rendering prepends the controller-problem wrapper
text of errors.rs line 137. -/
theorem display_error_active_counterexample :
    CanError.displayString (.ControllerProblem .Active) ≠ "ERROR ACTIVE" := by
  decide

/-- Claim C7 (amended): the bus-error variant bus-off renders exactly as
"bus off"; the controller-problem value error-active renders exactly as
"ERROR ACTIVE"; the bus-error variant controller-problem(error-active)
renders as "controller problem: ERROR ACTIVE". -/
theorem display_busoff_and_error_active :
    CanError.displayString .BusOff = "bus off" ∧
    ControllerProblem.displayString .Active = "ERROR ACTIVE" ∧
    CanError.displayString (.ControllerProblem .Active) =
      "controller problem: ERROR ACTIVE" :=
  ⟨rfl, rfl, rfl⟩

/-- Claim C8: for every pair of construction-error values, equality holds
iff the two values are the same case: structural equality as derived in
errors.rs line 590 identifies exactly the identical variants. -/
theorem construction_error_equality :
    ∀ a b : ConstructionError, ConstructionError.beq a b = true ↔ a = b := by
  decide

/-- Claim C9: the controller-specific-error-information accessor yields
the sub-slice of the frame data from index 5 on (the last 3 bytes)
exactly when the data length is 8, and nothing for every other length. -/
theorem get_ctrl_err_spec :
    ∀ data : List Nat,
      (data.length = 8 →
        get_ctrl_err data = some (data.drop 5) ∧ (data.drop 5).length = 3) ∧
      (data.length ≠ 8 → get_ctrl_err data = none) := by
  intro data
  constructor
  · intro h
    refine ⟨by simp [get_ctrl_err, h], by simp [h]⟩
  · intro h
    simp [get_ctrl_err, h]

/-- Witness for get_ctrl_err_spec: an 8-byte payload yields its last three
bytes, a 1-byte payload yields nothing. -/
theorem get_ctrl_err_spec_witness :
    get_ctrl_err [0, 1, 2, 3, 4, 5, 6, 7] = some [5, 6, 7] ∧
    get_ctrl_err [0] = none :=
  ⟨((get_ctrl_err_spec [0, 1, 2, 3, 4, 5, 6, 7]).1 rfl).1,
   (get_ctrl_err_spec [0]).2 (by decide)⟩

/-- Every failure of the controller-problem decoder is
invalid-controller-problem. -/
theorem controllerProblem_tryFrom_err {b : Nat} {e : CanErrorDecodingFailure}
    (h : ControllerProblem.tryFrom b = .err e) :
    e = .InvalidControllerProblem := by
  unfold ControllerProblem.tryFrom at h
  split at h <;> simp_all

/-- Every failure of the violation-type decoder is invalid-violation-type. -/
theorem violationType_tryFrom_err {b : Nat} {e : CanErrorDecodingFailure}
    (h : ViolationType.tryFrom b = .err e) : e = .InvalidViolationType := by
  unfold ViolationType.tryFrom at h
  split at h <;> simp_all

/-- Every failure of the location decoder is invalid-location. -/
theorem location_tryFrom_err {b : Nat} {e : CanErrorDecodingFailure}
    (h : Location.tryFrom b = .err e) : e = .InvalidLocation := by
  unfold Location.tryFrom at h
  split at h <;> simp_all

/-- Every mask outside the nine recognized single-flag values dispatches
to the Unknown case. -/
theorem fromFrame_unrecognized_mask (mask : Nat) (d : Fin 8 → Nat)
    (h : mask ∉ ([0x0001, 0x0002, 0x0004, 0x0008, 0x0010,
                  0x0020, 0x0040, 0x0080, 0x0100] : List Nat)) :
    CanError.fromFrame ⟨mask, d⟩ = .Unknown mask := by
  unfold CanError.fromFrame
  split <;> simp_all

/-- Claim C10: for every error frame, a decoding-failure produced by the
top-level decode carries one of invalid-controller-problem,
invalid-violation-type, or invalid-location; the remaining decode-failure
variants are never produced by the dispatcher. -/
theorem decoding_failure_range :
    ∀ (mask : Nat) (d : Fin 8 → Nat) (f : CanErrorDecodingFailure),
      CanError.fromFrame ⟨mask, d⟩ = .DecodingFailure f →
      f = .InvalidControllerProblem ∨ f = .InvalidViolationType ∨
        f = .InvalidLocation := by
  intro mask d f h
  rcases Decidable.em
      (mask ∈ ([0x0001, 0x0002, 0x0004, 0x0008, 0x0010,
                0x0020, 0x0040, 0x0080, 0x0100] : List Nat)) with hm | hm
  · have h4 : CanError.fromFrame ⟨0x0004, d⟩ =
        match ControllerProblem.tryFrom (d 1) with
        | .ok err => .ControllerProblem err
        | .err err => .DecodingFailure err := rfl
    have h8 : CanError.fromFrame ⟨0x0008, d⟩ =
        match ViolationType.tryFrom (d 2), Location.tryFrom (d 3) with
        | .ok vtype, .ok location => .ProtocolViolation vtype location
        | .err err, _ => .DecodingFailure err
        | _, .err err => .DecodingFailure err := rfl
    simp only [List.mem_cons, List.not_mem_nil, or_false] at hm
    rcases hm with rfl | rfl | rfl | rfl | rfl | rfl | rfl | rfl | rfl
    · exact CanError.noConfusion h
    · exact CanError.noConfusion h
    · rw [h4] at h
      cases hcp : ControllerProblem.tryFrom (d 1) with
      | ok v => rw [hcp] at h; exact CanError.noConfusion h
      | err e =>
        rw [hcp] at h
        injection h with h'
        exact Or.inl (h' ▸ controllerProblem_tryFrom_err hcp)
    · rw [h8] at h
      cases hv : ViolationType.tryFrom (d 2) with
      | ok vt =>
        rw [hv] at h
        cases hl : Location.tryFrom (d 3) with
        | ok loc => rw [hl] at h; exact CanError.noConfusion h
        | err e =>
          rw [hl] at h
          injection h with h'
          exact Or.inr (Or.inr (h' ▸ location_tryFrom_err hl))
      | err e =>
        rw [hv] at h
        cases hl : Location.tryFrom (d 3) with
        | ok loc =>
          rw [hl] at h
          injection h with h'
          exact Or.inr (Or.inl (h' ▸ violationType_tryFrom_err hv))
        | err e' =>
          rw [hl] at h
          injection h with h'
          exact Or.inr (Or.inl (h' ▸ violationType_tryFrom_err hv))
    · exact CanError.noConfusion h
    · exact CanError.noConfusion h
    · exact CanError.noConfusion h
    · exact CanError.noConfusion h
    · exact CanError.noConfusion h
  · rw [fromFrame_unrecognized_mask mask d hm] at h
    exact CanError.noConfusion h

/-- Witness for decoding_failure_range: mask 0x0004 with an invalid byte 1
yields a decoding-failure within the allowed three variants. -/
theorem decoding_failure_range_witness :
    CanErrorDecodingFailure.InvalidControllerProblem =
        .InvalidControllerProblem ∨
      CanErrorDecodingFailure.InvalidControllerProblem =
        .InvalidViolationType ∨
      CanErrorDecodingFailure.InvalidControllerProblem = .InvalidLocation :=
  decoding_failure_range 0x0004 (fun _ => 0xFF) .InvalidControllerProblem rfl

end SocketCan
